import Mathlib

/-!
Shallow embedding of the checkpoint lifecycle manager
(src/tbd/utils/checkpointing.py) and the columnar dataset reader
(src/tbd/data/readers.py) of the probnmn-clevr repository, together with
proofs about the properties the specification claims of them.
-/

namespace Tbd

/-! ### Python-level value model

State dicts are the opaque serialized snapshots that torch modules and
optimizers exchange: finite maps from parameter names to values.  A value
may be unpicklable, which is what makes serialization of a component fail.
-/

inductive Value where
  | int : Int → Value
  | unpicklable : Value
deriving DecidableEq, Repr

abbrev StateDict := List (String × Value)

/-- sdKeys lists the parameter names of a state dict, in order. -/
def sdKeys (sd : StateDict) : List String := sd.map Prod.fst

/-- picklableSD holds when every value in the state dict can be pickled. -/
def picklableSD (sd : StateDict) : Bool :=
  sd.all (fun kv => kv.2 ≠ Value.unpicklable)

instance exceptDecEq {ε α : Type} [DecidableEq ε] [DecidableEq α] :
    DecidableEq (Except ε α) := by
  intro a b
  cases a <;> cases b
  case error.error e f =>
    exact if h : e = f then .isTrue (by rw [h])
      else .isFalse (by intro hh; injection hh; exact h (by assumption))
  case error.ok e x => exact .isFalse (by intro hh; exact Except.noConfusion hh)
  case ok.error x e => exact .isFalse (by intro hh; exact Except.noConfusion hh)
  case ok.ok x y =>
    exact if h : x = y then .isTrue (by rw [h])
      else .isFalse (by intro hh; injection hh; exact h (by assumption))

/-! ### Torch modules and optimizers

A module is a bundle of parameters; `state_dict` snapshots them and
`load_state_dict` (strict, as torch default) restores them, failing when the
key sets disagree.  `nn.DataParallel` wraps a module; the wrapped module is
its `module` attribute, and the state dict of the wrapper itself carries
keys under a `module.` name space, which is why the source unwraps before
saving and loading.
-/

structure TorchModule where
  state : StateDict
deriving DecidableEq, Repr

def TorchModule.state_dict (m : TorchModule) : StateDict := m.state

inductive CkptError where
  | serializationError : CkptError
  | fileNotFound : CkptError
  | deserializationError : CkptError
  | stateDictMismatch : CkptError
deriving DecidableEq, Repr

/-- load_state_dict in strict mode: replaces the parameters when the key
sets agree, raises when they do not (missing or unexpected keys). -/
def TorchModule.load_state_dict (m : TorchModule) (sd : StateDict) :
    Except CkptError TorchModule :=
  if sdKeys sd = sdKeys m.state then .ok ⟨sd⟩ else .error .stateDictMismatch

/-- A model is either a bare module or a module wrapped in
nn.DataParallel. -/
inductive Model where
  | plain : TorchModule → Model
  | dataParallel : TorchModule → Model
deriving DecidableEq, Repr

/-- Model.underlying is the wrapped module of a DataParallel model and the
module itself otherwise. -/
def Model.underlying : Model → TorchModule
  | .plain m => m
  | .dataParallel m => m

def Model.isDataParallel : Model → Bool
  | .plain _ => false
  | .dataParallel _ => true

/-- dataParallelKey is the renaming nn.DataParallel applies to the keys of
the state dict of the wrapper itself. -/
def dataParallelKey (k : String) : String := "module." ++ k

/-- Model.state_dict: on a bare module the module snapshot, on a
DataParallel wrapper the snapshot with the keys under the wrapper name
space. -/
def Model.state_dict : Model → StateDict
  | .plain m => m.state_dict
  | .dataParallel m => m.state.map (fun kv => (dataParallelKey kv.1, kv.2))

/-- Model.withUnderlyingState replaces the parameters of the underlying
module, keeping the wrapping. -/
def Model.withUnderlyingState : Model → StateDict → Model
  | .plain _, sd => .plain ⟨sd⟩
  | .dataParallel _, sd => .dataParallel ⟨sd⟩

structure Optimizer where
  state : StateDict
deriving DecidableEq, Repr

def Optimizer.state_dict (o : Optimizer) : StateDict := o.state

/-- Optimizer.load_state_dict replaces the optimizer state with the decoded
snapshot. -/
def Optimizer.load_state_dict (_ : Optimizer) (sd : StateDict) : Optimizer := ⟨sd⟩

/-! ### The session directory as a small filesystem

All three checkpointing operations work inside one session directory (the
directory `create_checkpoint_dir` returns).  Its files are the copied
config, the `commit_sha.txt` sidecar, and one `model_iteration.pth`
artifact per saved iteration; the artifact name is determined by the
iteration number alone, exactly as the format string in the source
determines it.  A filesystem is an association list from file names to
contents in which every name occurs at most once, which `FS.write`
(overwrite) maintains.
-/

inductive FileName where
  | configCopy : FileName
  | commitShaTxt : FileName
  | artifact : Nat → FileName
deriving DecidableEq, Repr

inductive FileData where
  | text : String → FileData
  | ckpt : StateDict → StateDict → FileData
  | incomplete : FileData
deriving DecidableEq, Repr

abbrev FS := List (FileName × FileData)

def FS.write (fs : FS) (k : FileName) (v : FileData) : FS :=
  (k, v) :: fs.filter (fun e => decide (e.1 ≠ k))

def FS.read (fs : FS) (k : FileName) : Option FileData :=
  (fs.find? (fun e => decide (e.1 = k))).map Prod.snd

/-! ### The git revision query

The source shells out to `git rev-parse --short HEAD` capturing stdout.
When git is inside a repository the captured stdout is the short SHA
followed by a newline; when the query errors the captured stdout is empty
(stderr is piped away and the return code is never inspected).
-/

structure GitEnv where
  headSha : Option String
deriving DecidableEq, Repr

def gitStdout (env : GitEnv) : String :=
  match env.headSha with
  | some sha => sha ++ "\n"
  | none => ""

/-- pyStrip models Python str.strip(): drop whitespace from both ends. -/
def pyStrip (s : String) : String :=
  String.mk (((s.data.dropWhile Char.isWhitespace).reverse.dropWhile
    Char.isWhitespace).reverse)

/-- removeNL models Python replace of a newline by the empty string. -/
def removeNL (s : String) : String :=
  String.mk (s.data.filter (fun c => c ≠ '\n'))

/-- pyStripAll is the strip-then-drop-newlines cleanup the source applies to
every commit SHA it handles. -/
def pyStripAll (s : String) : String := removeNL (pyStrip s)

/-! ### create_checkpoint_dir

Creates the fresh session directory (so the filesystem starts empty),
copies the config file into it, runs the git query and writes whatever the
cleanup of its captured stdout yields into `commit_sha.txt` - the return
code of the query is never checked.
-/

def create_checkpoint_dir (env : GitEnv) (configYml : String) : FS :=
  let fs0 : FS := []
  let fs1 := fs0.write .configCopy (.text configYml)
  let commit_sha := pyStripAll (gitStdout env)
  fs1.write .commitShaTxt (.text commit_sha)

/-! ### save_checkpoint

The model state dict is the unwrapped module snapshot when the model is a
DataParallel wrapper, the model snapshot otherwise.  Both state dicts are
then serialized by torch.save into the single file named by the iteration
number.  torch.save opens its destination for writing - creating or
truncating the file - before it serializes, so a serialization failure
raises after the destination file already exists: the error case carries
the filesystem with the incomplete file left at the artifact name.
-/

def saved_model_state_dict (model : Model) : StateDict :=
  match model with
  | .dataParallel m => m.state_dict
  | .plain _ => model.state_dict

def torchSave (fs : FS) (name : FileName) (model_sd optim_sd : StateDict) :
    Except (FS × CkptError) FS :=
  if picklableSD model_sd && picklableSD optim_sd then
    .ok (fs.write name (.ckpt model_sd optim_sd))
  else
    .error (fs.write name .incomplete, .serializationError)

def save_checkpoint (fs : FS) (iteration : Nat) (model : Model)
    (optimizer : Optimizer) : Except (FS × CkptError) FS :=
  torchSave fs (.artifact iteration) (saved_model_state_dict model)
    optimizer.state_dict

/-! ### load_checkpoint

Computes the current commit SHA, reads the recorded one from
`commit_sha.txt` (a missing sidecar raises), warns when they differ and
proceeds, then loads the artifact named by the iteration number (a missing
artifact raises), restores the model - into the unwrapped module when the
model is a DataParallel wrapper - and restores the optimizer when one was
passed.  The warnings emitted are returned alongside the outcome, because
in the source they are observable whether or not the load then succeeds.
-/

def shaWarningMsg (current recorded : String) : String :=
  "Current commit " ++ current ++ " and the commit " ++ recorded ++
    " from which checkpoint was saved, are different."

def shaWarnings (env : GitEnv) (fileContents : String) : List String :=
  let current := pyStripAll (gitStdout env)
  let recorded := pyStripAll fileContents
  if current ≠ recorded then [shaWarningMsg current recorded] else []

/-- loadModelStateDict restores a snapshot into the unwrapped module when
the model is a DataParallel wrapper, into the model itself otherwise. -/
def loadModelStateDict (model : Model) (sd : StateDict) :
    Except CkptError Model :=
  match model with
  | .dataParallel m => (m.load_state_dict sd).map .dataParallel
  | .plain m => (m.load_state_dict sd).map .plain

structure LoadedPair where
  model : Model
  optimizer : Option Optimizer
deriving DecidableEq, Repr

def load_checkpoint (fs : FS) (env : GitEnv) (iteration : Nat)
    (model : Model) (optimizer : Option Optimizer) :
    List String × Except CkptError LoadedPair :=
  match fs.read .commitShaTxt with
  | none => ([], .error .fileNotFound)
  | some (.text contents) =>
      (shaWarnings env contents,
        match fs.read (.artifact iteration) with
        | none => .error .fileNotFound
        | some (.ckpt model_sd optim_sd) =>
            match loadModelStateDict model model_sd with
            | .error e => .error e
            | .ok model2 =>
                .ok ⟨model2, optimizer.map (fun o => o.load_state_dict optim_sd)⟩
        | some _ => .error .deserializationError)
  | some _ => ([], .error .deserializationError)

/-! ### The columnar dataset reader (src/tbd/data/readers.py)

The HDF store carries four named datasets and the split attribute; a name
access on a missing dataset or attribute raises KeyError, and nothing else
about the store is inspected at open time.  Slicing a dataset with `[:]`
materializes it as a numpy array, embedded here as a list of rows (token
rows for programs and questions, scalars for answers and image indices).
-/

inductive PyError where
  | keyError : String → PyError
  | typeError : String → PyError
  | indexError : PyError
  | attributeError : String → PyError
deriving DecidableEq, Repr

structure ClevrHdf where
  programs : Option (List (List Int))
  questions : Option (List (List Int))
  answers : Option (List Int)
  image_indices : Option (List Int)
  split : Option String
deriving DecidableEq, Repr

structure ClevrTokensReader where
  programs : List (List Int)
  questions : List (List Int)
  answers : List Int
  image_indices : List Int
  _split : String
deriving DecidableEq, Repr

/-- ClevrTokensReader.init builds the reader from the HDF store exactly as
the constructor in the source does: it copies the four arrays and the split
attribute into memory, in source order, raising KeyError at the first
missing name; no shape of any array is ever checked. -/
def ClevrTokensReader.init (f : ClevrHdf) : Except PyError ClevrTokensReader :=
  match f.programs with
  | none => .error (.keyError "programs")
  | some programs =>
    match f.questions with
    | none => .error (.keyError "questions")
    | some questions =>
      match f.answers with
      | none => .error (.keyError "answers")
      | some answers =>
        match f.image_indices with
        | none => .error (.keyError "image_indices")
        | some image_indices =>
          match f.split with
          | none => .error (.keyError "split")
          | some s => .ok ⟨programs, questions, answers, image_indices, s⟩

def ClevrTokensReader.split (r : ClevrTokensReader) : String := r._split

/-- npSize is the numpy ndarray `size` attribute: the number of elements of
the array, a plain integer. -/
def npSize (a : List Int) : Nat := a.length

/-- pyCallInt is the Python semantics of a call expression whose callee
evaluated to a plain integer: it raises TypeError unconditionally, whatever
the argument. -/
def pyCallInt (_callee : Nat) (_arg : Int) : Except PyError Nat :=
  .error (.typeError "int object is not callable")

/-- ClevrTokensReader.len embeds `__len__` from the source, which evaluates
the expression `self.image_indices.size(0)`: the attribute access yields
the integer `size` of the numpy array, and that integer is then called. -/
def ClevrTokensReader.len (r : ClevrTokensReader) : Except PyError Nat :=
  pyCallInt (npSize r.image_indices) 0

/-- pyNormIndex is the numpy treatment of a single integer index into the
first axis of an array of n rows: indices in [0, n) are taken as they are,
indices in [-n, 0) count from the end, anything else is out of range. -/
def pyNormIndex (n : Nat) (i : Int) : Option Nat :=
  if 0 ≤ i ∧ i < (n : Int) then some i.toNat
  else if -(n : Int) ≤ i ∧ i < 0 then some (i + (n : Int)).toNat
  else none

/-- npGetInt is numpy single-integer indexing on the first axis: the
normalized index is always in range, so the default never surfaces. -/
def npGetInt (a : List α) (dflt : α) (i : Int) : Except PyError α :=
  match pyNormIndex a.length i with
  | some k => .ok (a.getD k dflt)
  | none => .error .indexError

/-- npGetSlice is numpy (equivalently Python) slicing `a[lo:hi]` for
nonnegative bounds: both bounds clamp to the array length and a slice never
raises. -/
def npGetSlice (a : List α) (lo hi : Nat) : List α :=
  (a.take hi).drop lo

/-- A Record is the cross-section of the four arrays at one row, keyed as
the dict literal in the source keys it. -/
structure Record where
  program : List Int
  question : List Int
  answer : Int
  image_index : Int
deriving DecidableEq, Repr

inductive GetResult where
  | single : Record → GetResult
  | seq : List Record → GetResult
deriving DecidableEq, Repr

/-- An index passed to `__getitem__` is a single integer or a slice with
nonnegative bounds, the only slices the specification speaks about. -/
inductive PyIndex where
  | int : Int → PyIndex
  | slice : Nat → Nat → PyIndex
deriving DecidableEq, Repr

def mkRecord (x : List Int × List Int × Int × Int) : Record :=
  ⟨x.1, x.2.1, x.2.2.1, x.2.2.2⟩

/-- zip4 is Python zip over four sequences: it truncates to the shortest,
exactly as nested List.zip does. -/
def zip4 (as : List (List Int)) (bs : List (List Int)) (cs : List Int)
    (ds : List Int) : List (List Int × List Int × Int × Int) :=
  as.zip (bs.zip (cs.zip ds))

/-- ClevrTokensReader.getitem embeds `__getitem__`: each of the four arrays
is indexed with the incoming index (an integer index raising IndexError on
the first array that rejects it), and a slice produces the list of one
record dict per zipped row while an integer produces a single record
dict. -/
def ClevrTokensReader.getitem (r : ClevrTokensReader) (index : PyIndex) :
    Except PyError GetResult :=
  match index with
  | .int i => do
      let program ← npGetInt r.programs [] i
      let question ← npGetInt r.questions [] i
      let answer ← npGetInt r.answers 0 i
      let image_index ← npGetInt r.image_indices 0 i
      pure (.single ⟨program, question, answer, image_index⟩)
  | .slice lo hi =>
      let program := npGetSlice r.programs lo hi
      let question := npGetSlice r.questions lo hi
      let answer := npGetSlice r.answers lo hi
      let image_index := npGetSlice r.image_indices lo hi
      pure (.seq ((zip4 program question answer image_index).map mkRecord))

/-- recordAt is the cross-section of the four arrays at row k. -/
def recordAt (r : ClevrTokensReader) (k : Nat) : Record :=
  ⟨r.programs.getD k [], r.questions.getD k [], r.answers.getD k 0,
    r.image_indices.getD k 0⟩

/-- recordsOf lists the cross-section records of all rows in ascending row
order (truncated at the shortest array, which for aligned arrays is every
row). -/
def recordsOf (r : ClevrTokensReader) : List Record :=
  (zip4 r.programs r.questions r.answers r.image_indices).map mkRecord

/-! ### The member tables of the reader module

The module docstring of readers.py states that every reader must implement
`__len__`, `__getitem__` and `keys`; the body of ClevrTokensReader defines
the members listed below and nothing else, so an attribute lookup of any
other name on a reader raises AttributeError.
-/

def readerRequiredMethods : List String := ["__len__", "__getitem__", "keys"]

def clevrTokensReaderMembers : List String :=
  ["__init__", "__len__", "__getitem__", "split"]

def readerHasAttr (name : String) : Bool := name ∈ clevrTokensReaderMembers

/-! ### Concrete inputs used by witnesses and counterexamples -/

/-- c5Store is a store whose questions array has 9 rows while the other
three arrays have 10. -/
def c5Store : ClevrHdf :=
  { programs := some ((List.range 10).map (fun i => [(i : Int)]))
    questions := some ((List.range 9).map (fun i => [(i : Int)]))
    answers := some ((List.range 10).map (fun i => (i : Int)))
    image_indices := some ((List.range 10).map (fun i => (i : Int)))
    split := some "train" }

/-- c5Reader is the reader the constructor builds from c5Store. -/
def c5Reader : ClevrTokensReader :=
  ⟨(List.range 10).map (fun i => [(i : Int)]),
   (List.range 9).map (fun i => [(i : Int)]),
   (List.range 10).map (fun i => (i : Int)),
   (List.range 10).map (fun i => (i : Int)), "train"⟩

/-- c7r is a well formed reader over a 10-row store. -/
def c7r : ClevrTokensReader :=
  ⟨(List.range 10).map (fun i => [(i : Int)]),
   (List.range 10).map (fun i => [(i : Int) + 100]),
   (List.range 10).map (fun i => (i : Int)),
   (List.range 10).map (fun i => (i : Int) + 1000), "train"⟩

/-- wEnv is a git environment whose short HEAD revision is abc123. -/
def wEnv : GitEnv := ⟨some "abc123"⟩

/-- wEnvOther is a git environment whose short HEAD revision is def456. -/
def wEnvOther : GitEnv := ⟨some "def456"⟩

/-- c9EnvNoGit is a git environment in which the revision query errors. -/
def c9EnvNoGit : GitEnv := ⟨none⟩

/-- wFS is a session directory holding only the provenance sidecar. -/
def wFS : FS := [(FileName.commitShaTxt, FileData.text "abc123")]

def wModelA : Model := .dataParallel ⟨[("w", Value.int 5)]⟩

def wModelB : Model := .plain ⟨[("w", Value.int 0)]⟩

def wOptA : Optimizer := ⟨[("lr", Value.int 3)]⟩

def wOptB : Optimizer := ⟨[("lr", Value.int 0)]⟩

/-- c4BadOpt is an optimizer whose state cannot be pickled. -/
def c4BadOpt : Optimizer := ⟨[("momentum", Value.unpicklable)]⟩

/-- c3fs is the session a run created at revision abc123, with one saved
artifact at iteration 0. -/
def c3fs : FS :=
  (create_checkpoint_dir wEnv "config").write (.artifact 0)
    (.ckpt [("w", Value.int 9)] [("lr", Value.int 4)])

/-! ### Lemmas about the filesystem model -/

theorem FS.read_write_self (fs : FS) (k : FileName) (v : FileData) :
    (fs.write k v).read k = some v := by
  simp [FS.write, FS.read, List.find?_cons_of_pos]

theorem find?_filter_of_ne (fs : FS) (k kp : FileName) (h : kp ≠ k) :
    List.find? (fun e => decide (e.1 = kp))
        (fs.filter (fun e => decide (e.1 ≠ k))) =
      List.find? (fun e => decide (e.1 = kp)) fs := by
  induction fs with
  | nil => rfl
  | cons a t ih =>
    rw [List.filter_cons]
    by_cases hk : a.1 = k
    · have hd : decide (a.1 ≠ k) = false := by simp [hk]
      have hd2 : decide (a.1 = kp) = false := by simp [hk]; exact fun hh => h hh.symm
      rw [if_neg (by simp [hd]), List.find?_cons_of_neg _ (by simp [hd2]), ih]
    · rw [if_pos (by simp [hk])]
      by_cases hkp : a.1 = kp
      · rw [List.find?_cons_of_pos _ (by simp [hkp]),
          List.find?_cons_of_pos _ (by simp [hkp])]
      · rw [List.find?_cons_of_neg _ (by simp [hkp]),
          List.find?_cons_of_neg _ (by simp [hkp]), ih]

theorem FS.read_write_ne (fs : FS) (k kp : FileName) (v : FileData)
    (h : kp ≠ k) : (fs.write k v).read kp = fs.read kp := by
  simp only [FS.write, FS.read]
  rw [List.find?_cons_of_neg _ (by simp; exact fun hh => h hh.symm),
    find?_filter_of_ne fs k kp h]

theorem FS.write_count (fs : FS) (k : FileName) (v : FileData) :
    ((fs.write k v).filter (fun e => decide (e.1 = k))).length = 1 := by
  simp only [FS.write, List.filter_cons]
  rw [if_pos (by simp)]
  have hnil : List.filter (fun e => decide (e.1 = k))
      (fs.filter (fun e => decide (e.1 ≠ k))) = [] := by
    rw [List.filter_filter]
    exact List.filter_eq_nil_iff.mpr (by intro a _; simp)
  rw [hnil]
  rfl

/-! ### Lemmas about models and state dicts -/

theorem saved_model_state_dict_eq (model : Model) :
    saved_model_state_dict model = (Model.underlying model).state := by
  cases model <;> rfl

theorem loadModelStateDict_ok (model : Model) (sd : StateDict)
    (h : sdKeys sd = sdKeys (Model.underlying model).state) :
    loadModelStateDict model sd = .ok (model.withUnderlyingState sd) := by
  cases model with
  | plain m =>
    simp only [Model.underlying] at h
    simp [loadModelStateDict, TorchModule.load_state_dict, h,
      Model.withUnderlyingState, Except.map]
  | dataParallel m =>
    simp only [Model.underlying] at h
    simp [loadModelStateDict, TorchModule.load_state_dict, h,
      Model.withUnderlyingState, Except.map]

theorem withUnderlyingState_state (model : Model) (sd : StateDict) :
    (Model.underlying (model.withUnderlyingState sd)).state = sd := by
  cases model <;> rfl

theorem withUnderlyingState_wrap (model : Model) (sd : StateDict) :
    (model.withUnderlyingState sd).isDataParallel = model.isDataParallel := by
  cases model <;> rfl

/-- save_then_load packages the successful save of a checkpoint followed by
its load into possibly differently wrapped targets. -/
theorem save_then_load (fs : FS) (env : GitEnv) (iteration : Nat)
    (tag : String) (src tgt : Model) (opt topt : Optimizer)
    (hsha : fs.read .commitShaTxt = some (.text tag))
    (hpm : picklableSD (Model.underlying src).state = true)
    (hpo : picklableSD opt.state = true)
    (hkeys : sdKeys (Model.underlying src).state =
      sdKeys (Model.underlying tgt).state) :
    save_checkpoint fs iteration src opt =
      .ok (fs.write (.artifact iteration)
        (.ckpt (Model.underlying src).state opt.state)) ∧
    load_checkpoint (fs.write (.artifact iteration)
        (.ckpt (Model.underlying src).state opt.state)) env iteration tgt
        (some topt) =
      (shaWarnings env tag,
        .ok ⟨tgt.withUnderlyingState (Model.underlying src).state,
          some ⟨opt.state⟩⟩) := by
  constructor
  · unfold save_checkpoint torchSave
    rw [saved_model_state_dict_eq]
    simp [hpm, hpo, Optimizer.state_dict]
  · unfold load_checkpoint
    rw [FS.read_write_ne _ _ _ _ (by intro hh; exact FileName.noConfusion hh),
      hsha, FS.read_write_self]
    dsimp only
    rw [loadModelStateDict_ok tgt _ hkeys]
    rfl

/-! ### Lemmas about numpy indexing -/

theorem pyNormIndex_none (n : Nat) (i : Int)
    (h : i < -(n : Int) ∨ (n : Int) ≤ i) : pyNormIndex n i = none := by
  unfold pyNormIndex
  rw [if_neg (by omega), if_neg (by omega)]

theorem pyNormIndex_nat (n k : Nat) (h : k < n) :
    pyNormIndex n (k : Int) = some k := by
  unfold pyNormIndex
  rw [if_pos (by omega)]
  simp

theorem pyNormIndex_negIdx (n : Nat) (i : Int) (h1 : -(n : Int) ≤ i)
    (h2 : i < 0) : pyNormIndex n i = some (i + (n : Int)).toNat := by
  unfold pyNormIndex
  rw [if_neg (by omega), if_pos ⟨h1, h2⟩]

theorem npGetInt_out {α : Type} (a : List α) (dflt : α) (i : Int)
    (h : i < -(a.length : Int) ∨ (a.length : Int) ≤ i) :
    npGetInt a dflt i = .error .indexError := by
  unfold npGetInt
  rw [pyNormIndex_none _ _ h]

theorem npGetInt_nat {α : Type} (a : List α) (dflt : α) (k : Nat)
    (h : k < a.length) : npGetInt a dflt (k : Int) = .ok (a.getD k dflt) := by
  unfold npGetInt
  rw [pyNormIndex_nat _ _ h]

theorem npGetInt_negIdx {α : Type} (a : List α) (dflt : α) (i : Int)
    (h1 : -(a.length : Int) ≤ i) (h2 : i < 0) :
    npGetInt a dflt i = .ok (a.getD (i + (a.length : Int)).toNat dflt) := by
  unfold npGetInt
  rw [pyNormIndex_negIdx _ _ h1 h2]

/-! ### Lemmas about slicing and zipping -/

theorem zip_take {α β : Type} (l1 : List α) (l2 : List β) (k : Nat) :
    (l1.take k).zip (l2.take k) = (l1.zip l2).take k := by
  simp [List.zip, List.take_zipWith]

theorem zip_drop {α β : Type} (l1 : List α) (l2 : List β) (k : Nat) :
    (l1.drop k).zip (l2.drop k) = (l1.zip l2).drop k := by
  simp [List.zip, List.drop_zipWith]

theorem zip_slice {α β : Type} (l1 : List α) (l2 : List β) (lo hi : Nat) :
    (npGetSlice l1 lo hi).zip (npGetSlice l2 lo hi) =
      npGetSlice (l1.zip l2) lo hi := by
  unfold npGetSlice
  rw [zip_drop, zip_take]

theorem zip4_slice (as bs : List (List Int)) (cs ds : List Int)
    (lo hi : Nat) :
    zip4 (npGetSlice as lo hi) (npGetSlice bs lo hi) (npGetSlice cs lo hi)
        (npGetSlice ds lo hi) =
      npGetSlice (zip4 as bs cs ds) lo hi := by
  unfold zip4
  rw [zip_slice, zip_slice, zip_slice]

theorem map_slice {α β : Type} (f : α → β) (l : List α) (lo hi : Nat) :
    (npGetSlice l lo hi).map f = npGetSlice (l.map f) lo hi := by
  unfold npGetSlice
  rw [List.map_drop, List.map_take]

/-- getitem on a slice always succeeds and returns exactly the slice of the
full list of row records, whatever the array lengths. -/
theorem getitem_slice (r : ClevrTokensReader) (lo hi : Nat) :
    r.getitem (.slice lo hi) =
      .ok (.seq (npGetSlice (recordsOf r) lo hi)) := by
  unfold ClevrTokensReader.getitem recordsOf
  dsimp only
  rw [zip4_slice, map_slice]
  rfl

theorem slice_self_nil {α : Type} (l : List α) (k : Nat) :
    npGetSlice l k k = [] := by
  unfold npGetSlice
  rw [List.drop_eq_nil_of_le]
  rw [List.length_take]
  exact Nat.min_le_left _ _

/-! ### Lemmas about getitem on integer indices -/

theorem getitem_int_out (r : ClevrTokensReader) (n : Nat)
    (hpl : r.programs.length = n) (i : Int)
    (h : i < -(n : Int) ∨ (n : Int) ≤ i) :
    r.getitem (.int i) = .error .indexError := by
  unfold ClevrTokensReader.getitem
  dsimp only
  rw [npGetInt_out r.programs [] i (by rw [hpl]; exact h)]
  rfl

theorem getitem_int_ok (r : ClevrTokensReader) (n : Nat)
    (hpl : r.programs.length = n) (hql : r.questions.length = n)
    (hal : r.answers.length = n) (hil : r.image_indices.length = n)
    (k : Nat) (hk : k < n) :
    r.getitem (.int (k : Int)) = .ok (.single (recordAt r k)) := by
  unfold ClevrTokensReader.getitem
  dsimp only
  rw [npGetInt_nat r.programs [] k (by omega),
    npGetInt_nat r.questions [] k (by omega),
    npGetInt_nat r.answers 0 k (by omega),
    npGetInt_nat r.image_indices 0 k (by omega)]
  rfl

theorem getitem_int_negIdx (r : ClevrTokensReader) (n : Nat)
    (hpl : r.programs.length = n) (hql : r.questions.length = n)
    (hal : r.answers.length = n) (hil : r.image_indices.length = n)
    (i : Int) (h1 : -(n : Int) ≤ i) (h2 : i < 0) :
    r.getitem (.int i) = .ok (.single (recordAt r (i + (n : Int)).toNat)) := by
  unfold ClevrTokensReader.getitem
  dsimp only
  rw [npGetInt_negIdx r.programs [] i (by rw [hpl]; exact h1) h2,
    npGetInt_negIdx r.questions [] i (by rw [hql]; exact h1) h2,
    npGetInt_negIdx r.answers 0 i (by rw [hal]; exact h1) h2,
    npGetInt_negIdx r.image_indices 0 i (by rw [hil]; exact h1) h2,
    hpl, hql, hal, hil]
  rfl

/-- save_checkpoint succeeds exactly by overwriting the artifact name of its
iteration when both snapshots serialize. -/
theorem save_checkpoint_ok (fs : FS) (iteration : Nat) (model : Model)
    (optimizer : Optimizer)
    (hpm : picklableSD (saved_model_state_dict model) = true)
    (hpo : picklableSD optimizer.state = true) :
    save_checkpoint fs iteration model optimizer =
      .ok (fs.write (.artifact iteration)
        (.ckpt (saved_model_state_dict model) optimizer.state)) := by
  unfold save_checkpoint torchSave
  simp [hpm, hpo, Optimizer.state_dict]

/-! ### The claims -/

/-- C1: for every step and for the component map the code persists (model
and optimizer), saving at a step and loading at the same step in the same
session succeeds and restores, for each component name, a state observably
equal to the one saved: the target model ends with the saved module
parameters and the target optimizer ends with the saved optimizer state. -/
theorem c1_save_load_roundtrip (fs : FS) (env : GitEnv) (iteration : Nat)
    (tag : String) (model tgt : Model) (optimizer topt : Optimizer)
    (hsha : fs.read .commitShaTxt = some (.text tag))
    (hpm : picklableSD (Model.underlying model).state = true)
    (hpo : picklableSD optimizer.state = true)
    (hkeys : sdKeys (Model.underlying model).state =
      sdKeys (Model.underlying tgt).state) :
    save_checkpoint fs iteration model optimizer =
      .ok (fs.write (.artifact iteration)
        (.ckpt (Model.underlying model).state optimizer.state)) ∧
    load_checkpoint (fs.write (.artifact iteration)
        (.ckpt (Model.underlying model).state optimizer.state)) env iteration
        tgt (some topt) =
      (shaWarnings env tag,
        .ok ⟨tgt.withUnderlyingState (Model.underlying model).state,
          some ⟨optimizer.state⟩⟩) ∧
    (Model.underlying (tgt.withUnderlyingState
        (Model.underlying model).state)).state =
      (Model.underlying model).state := by
  obtain ⟨h1, h2⟩ :=
    save_then_load fs env iteration tag model tgt optimizer topt hsha hpm hpo
      hkeys
  exact ⟨h1, h2, withUnderlyingState_state _ _⟩

theorem c1_save_load_roundtrip_witness :
    save_checkpoint wFS 7 wModelA wOptA =
      .ok (wFS.write (.artifact 7)
        (.ckpt (Model.underlying wModelA).state wOptA.state)) ∧
    load_checkpoint (wFS.write (.artifact 7)
        (.ckpt (Model.underlying wModelA).state wOptA.state)) wEnv 7 wModelB
        (some wOptB) =
      (shaWarnings wEnv "abc123",
        .ok ⟨wModelB.withUnderlyingState (Model.underlying wModelA).state,
          some ⟨wOptA.state⟩⟩) ∧
    (Model.underlying (wModelB.withUnderlyingState
        (Model.underlying wModelA).state)).state =
      (Model.underlying wModelA).state :=
  c1_save_load_roundtrip wFS wEnv 7 "abc123" wModelA wModelB wOptA wOptB
    (by decide) (by decide) (by decide) (by decide)

/-- C2: saving twice at the same step leaves exactly one artifact file for
that step, deterministically named by the step, and the artifact holds the
state of the second save only; nothing of the first save survives in it. -/
theorem c2_same_step_overwrite (fs : FS) (iteration : Nat) (m1 m2 : Model)
    (o1 o2 : Optimizer)
    (h1m : picklableSD (saved_model_state_dict m1) = true)
    (h1o : picklableSD o1.state = true)
    (h2m : picklableSD (saved_model_state_dict m2) = true)
    (h2o : picklableSD o2.state = true) :
    save_checkpoint fs iteration m1 o1 =
      .ok (fs.write (.artifact iteration)
        (.ckpt (saved_model_state_dict m1) o1.state)) ∧
    save_checkpoint (fs.write (.artifact iteration)
        (.ckpt (saved_model_state_dict m1) o1.state)) iteration m2 o2 =
      .ok ((fs.write (.artifact iteration)
          (.ckpt (saved_model_state_dict m1) o1.state)).write
        (.artifact iteration) (.ckpt (saved_model_state_dict m2) o2.state)) ∧
    (((fs.write (.artifact iteration)
          (.ckpt (saved_model_state_dict m1) o1.state)).write
        (.artifact iteration)
        (.ckpt (saved_model_state_dict m2) o2.state)).filter
      (fun e => decide (e.1 = FileName.artifact iteration))).length = 1 ∧
    ((fs.write (.artifact iteration)
          (.ckpt (saved_model_state_dict m1) o1.state)).write
        (.artifact iteration)
        (.ckpt (saved_model_state_dict m2) o2.state)).read
      (.artifact iteration) =
      some (.ckpt (saved_model_state_dict m2) o2.state) :=
  ⟨save_checkpoint_ok fs iteration m1 o1 h1m h1o,
    save_checkpoint_ok _ iteration m2 o2 h2m h2o,
    FS.write_count _ _ _, FS.read_write_self _ _ _⟩

theorem c2_same_step_overwrite_witness :
    save_checkpoint [] 3 wModelA wOptA =
      .ok (FS.write [] (.artifact 3)
        (.ckpt (saved_model_state_dict wModelA) wOptA.state)) ∧
    save_checkpoint (FS.write [] (.artifact 3)
        (.ckpt (saved_model_state_dict wModelA) wOptA.state)) 3 wModelB
        wOptB =
      .ok ((FS.write [] (.artifact 3)
          (.ckpt (saved_model_state_dict wModelA) wOptA.state)).write
        (.artifact 3) (.ckpt (saved_model_state_dict wModelB) wOptB.state)) ∧
    (((FS.write [] (.artifact 3)
          (.ckpt (saved_model_state_dict wModelA) wOptA.state)).write
        (.artifact 3)
        (.ckpt (saved_model_state_dict wModelB) wOptB.state)).filter
      (fun e => decide (e.1 = FileName.artifact 3))).length = 1 ∧
    ((FS.write [] (.artifact 3)
          (.ckpt (saved_model_state_dict wModelA) wOptA.state)).write
        (.artifact 3)
        (.ckpt (saved_model_state_dict wModelB) wOptB.state)).read
      (.artifact 3) =
      some (.ckpt (saved_model_state_dict wModelB) wOptB.state) :=
  c2_same_step_overwrite [] 3 wModelA wModelB wOptA wOptB (by decide)
    (by decide) (by decide) (by decide)

/-- C3: when the recorded provenance tag differs from the current one, load
still succeeds, restores the targets from the artifact, and surfaces the
mismatch only as a non-empty warning list; the mismatch never blocks the
restore. -/
theorem c3_mismatch_nonfatal (fs : FS) (env : GitEnv) (iteration : Nat)
    (tag : String) (msd osd : StateDict) (tgt : Model) (topt : Optimizer)
    (hsha : fs.read .commitShaTxt = some (.text tag))
    (hart : fs.read (.artifact iteration) = some (.ckpt msd osd))
    (hkeys : sdKeys msd = sdKeys (Model.underlying tgt).state)
    (hmismatch : pyStripAll (gitStdout env) ≠ pyStripAll tag) :
    load_checkpoint fs env iteration tgt (some topt) =
      (shaWarnings env tag, .ok ⟨tgt.withUnderlyingState msd, some ⟨osd⟩⟩) ∧
    shaWarnings env tag ≠ [] := by
  constructor
  · unfold load_checkpoint
    rw [hsha]
    dsimp only
    rw [hart]
    dsimp only
    rw [loadModelStateDict_ok tgt msd hkeys]
    rfl
  · unfold shaWarnings
    dsimp only
    rw [if_pos hmismatch]
    exact List.cons_ne_nil _ _

theorem c3_mismatch_nonfatal_witness :
    load_checkpoint c3fs wEnvOther 0 wModelB (some wOptB) =
      (shaWarnings wEnvOther "abc123",
        .ok ⟨wModelB.withUnderlyingState [("w", Value.int 9)],
          some ⟨[("lr", Value.int 4)]⟩⟩) ∧
    shaWarnings wEnvOther "abc123" ≠ [] :=
  c3_mismatch_nonfatal c3fs wEnvOther 0 "abc123" [("w", Value.int 9)]
    [("lr", Value.int 4)] wModelB wOptB (by decide) (by decide) (by decide)
    (by decide)

/-- C4 counterexample: a save whose optimizer state fails to serialize
raises SerializationError, yet the filesystem it leaves behind contains an
incomplete artifact file for that step, so the save is not all-or-nothing
as the claim states. -/
theorem c4_counterexample :
    save_checkpoint [] 0 (Model.plain ⟨[("w", Value.int 0)]⟩) c4BadOpt =
      .error ([(FileName.artifact 0, FileData.incomplete)],
        .serializationError) ∧
    FS.read [(FileName.artifact 0, FileData.incomplete)]
        (FileName.artifact 0) = some FileData.incomplete := by decide

/-- C4 amended: save hands the final artifact path straight to the
serializer, with no temporary location and no rename; whenever
serialization of a component fails, the failed save leaves an incomplete
artifact file for that step at that path. -/
theorem c4_amended_partial_artifact (fs : FS) (iteration : Nat)
    (model : Model) (optimizer : Optimizer)
    (h : (picklableSD (saved_model_state_dict model) &&
      picklableSD optimizer.state) = false) :
    save_checkpoint fs iteration model optimizer =
      .error (fs.write (.artifact iteration) .incomplete,
        .serializationError) ∧
    (fs.write (.artifact iteration) FileData.incomplete).read
      (.artifact iteration) = some FileData.incomplete := by
  constructor
  · unfold save_checkpoint torchSave
    simp only [Optimizer.state_dict, h]
    rfl
  · exact FS.read_write_self _ _ _

theorem c4_amended_partial_artifact_witness :
    save_checkpoint [] 5 wModelA c4BadOpt =
      .error (FS.write [] (.artifact 5) .incomplete, .serializationError) ∧
    (FS.write [] (.artifact 5) FileData.incomplete).read (.artifact 5) =
      some FileData.incomplete :=
  c4_amended_partial_artifact [] 5 wModelA c4BadOpt (by decide)

/-- C5 counterexample: a store whose questions array has 9 rows while the
other three arrays have 10 opens successfully and returns a reader; the
length disagreement raises nothing at open time. -/
theorem c5_counterexample :
    ClevrTokensReader.init c5Store = .ok c5Reader ∧
    c5Reader.questions.length = 9 ∧ c5Reader.programs.length = 10 := by
  decide

/-- C5 amended: open performs no cross-array validation at all: whenever the
four arrays and the split attribute are present it returns the reader
holding them as they are, whatever their lengths; it fails (KeyError) only
when one of the five names is missing. -/
theorem c5_amended_no_validation (f : ClevrHdf) (p q : List (List Int))
    (a ii : List Int) (s : String) (hp : f.programs = some p)
    (hq : f.questions = some q) (ha : f.answers = some a)
    (hii : f.image_indices = some ii) (hs : f.split = some s) :
    ClevrTokensReader.init f = .ok ⟨p, q, a, ii, s⟩ := by
  unfold ClevrTokensReader.init
  rw [hp]
  dsimp only
  rw [hq]
  dsimp only
  rw [ha]
  dsimp only
  rw [hii]
  dsimp only
  rw [hs]

theorem c5_amended_no_validation_witness :
    ClevrTokensReader.init c5Store =
      .ok ⟨(List.range 10).map (fun i => [(i : Int)]),
        (List.range 9).map (fun i => [(i : Int)]),
        (List.range 10).map (fun i => (i : Int)),
        (List.range 10).map (fun i => (i : Int)), "train"⟩ :=
  c5_amended_no_validation c5Store _ _ _ _ _ (by decide) (by decide)
    (by decide) (by decide) (by decide)

/-- C6: length never returns the row count: the expression the source
evaluates calls the integer size attribute of a numpy array, so it raises
TypeError on every reader, however well formed its store. -/
theorem c6_len_raises_typeerror (r : ClevrTokensReader) :
    r.len = .error (.typeError "int object is not callable") := rfl

/-- C7 counterexample: on a 10-row store, getting the slice from 0 to 11
does not fail with IndexOutOfRange: the slice bounds clamp and all 10
records come back; getting index -1 does not fail either, it returns the
last row. -/
theorem c7_counterexample :
    c7r.getitem (.slice 0 11) = .ok (.seq (recordsOf c7r)) ∧
    (recordsOf c7r).length = 10 ∧
    c7r.getitem (.int (-1)) =
      .ok (.single ⟨[(9 : Int)], [(109 : Int)], (9 : Int), (1009 : Int)⟩) := by
  decide

/-- C7 amended: on an aligned n-row reader, an integer index fails with
IndexOutOfRange exactly when it lies outside the interval from -n
inclusive to n exclusive: indices in the lower half address rows from the
end, and in-range indices return the cross-section record of their row.  A
slice never fails: its bounds clamp to the row count and it returns one
record per row of the clamped half-open range in ascending row order, so
an empty range yields an empty sequence and an in-bounds range from lo to
hi yields exactly hi minus lo records. -/
theorem c7_amended_indexing (r : ClevrTokensReader) (n : Nat)
    (hpl : r.programs.length = n) (hql : r.questions.length = n)
    (hal : r.answers.length = n) (hil : r.image_indices.length = n) :
    (∀ i : Int, i < -(n : Int) ∨ (n : Int) ≤ i →
      r.getitem (.int i) = .error .indexError) ∧
    (∀ k : Nat, k < n →
      r.getitem (.int (k : Int)) = .ok (.single (recordAt r k))) ∧
    (∀ i : Int, -(n : Int) ≤ i → i < 0 →
      r.getitem (.int i) =
        .ok (.single (recordAt r (i + (n : Int)).toNat))) ∧
    (∀ lo hi : Nat,
      r.getitem (.slice lo hi) =
        .ok (.seq (npGetSlice (recordsOf r) lo hi))) ∧
    (∀ k : Nat, r.getitem (.slice k k) = .ok (.seq [])) ∧
    (∀ lo hi : Nat, lo ≤ hi → hi ≤ n →
      (npGetSlice (recordsOf r) lo hi).length = hi - lo) := by
  refine ⟨?_, ?_, ?_, ?_, ?_, ?_⟩
  · intro i h
    exact getitem_int_out r n hpl i h
  · intro k hk
    exact getitem_int_ok r n hpl hql hal hil k hk
  · intro i h1 h2
    exact getitem_int_negIdx r n hpl hql hal hil i h1 h2
  · intro lo hi
    exact getitem_slice r lo hi
  · intro k
    rw [getitem_slice, slice_self_nil]
  · intro lo hi h1 h2
    have hlen : (recordsOf r).length = n := by
      simp [recordsOf, zip4, List.length_zip, hpl, hql, hal, hil]
    unfold npGetSlice
    rw [List.length_drop, List.length_take, hlen]
    omega

theorem c7_amended_indexing_witness :
    c7r.getitem (.int 12) = .error .indexError ∧
    c7r.getitem (.int (3 : Nat)) = .ok (.single (recordAt c7r 3)) ∧
    c7r.getitem (.int (-2)) =
      .ok (.single (recordAt c7r ((-2 : Int) + (10 : Int)).toNat)) ∧
    c7r.getitem (.slice 2 5) = .ok (.seq (npGetSlice (recordsOf c7r) 2 5)) ∧
    c7r.getitem (.slice 5 5) = .ok (.seq []) ∧
    (npGetSlice (recordsOf c7r) 2 5).length = 5 - 2 := by
  have h := c7_amended_indexing c7r 10 (by decide) (by decide) (by decide)
    (by decide)
  exact ⟨h.1 12 (by decide), h.2.1 3 (by decide),
    h.2.2.1 (-2) (by decide) (by decide), h.2.2.2.1 2 5, h.2.2.2.2.1 5,
    h.2.2.2.2.2 2 5 (by decide) (by decide)⟩

/-- C8: the module docstring lists keys among the three methods every
reader must implement, yet the reader class defines no keys member, so an
attribute lookup of keys on any reader fails instead of producing the
primary-key sequence. -/
theorem c8_keys_missing :
    "keys" ∈ readerRequiredMethods ∧ readerHasAttr "keys" = false := by
  decide

/-- C9 counterexample: with the revision query erroring, creating a session
does not fail; it writes the cleanup of the empty captured stdout, that is
the empty string, into the provenance sidecar as if it were a real tag. -/
theorem c9_counterexample :
    FS.read (create_checkpoint_dir c9EnvNoGit "config")
      FileName.commitShaTxt = some (FileData.text "") := by decide

/-- C9 amended: when the revision-query mechanism errors its captured
stdout is empty, and createSession neither fails nor warns: it silently
records the empty string as the provenance tag of the session. -/
theorem c9_amended_empty_tag (env : GitEnv) (configYml : String)
    (h : env.headSha = none) :
    (create_checkpoint_dir env configYml).read FileName.commitShaTxt =
      some (FileData.text "") := by
  unfold create_checkpoint_dir
  dsimp only
  rw [FS.read_write_self]
  have hg : gitStdout env = "" := by
    unfold gitStdout
    rw [h]
  rw [hg]
  rfl

theorem c9_amended_empty_tag_witness :
    (create_checkpoint_dir c9EnvNoGit "config2").read FileName.commitShaTxt =
      some (FileData.text "") :=
  c9_amended_empty_tag c9EnvNoGit "config2" (by decide)

/-- C10: checkpoints are interchangeable across data-parallel wrapping: the
artifact stores the state of the unwrapped underlying module under the
model key whatever the wrapping of the saved model, and load restores that
state into the unwrapped underlying module of the target whatever the
wrapping of the target, preserving the target wrapping - so wrapped and
unwrapped models restore from each other in every combination. -/
theorem c10_dataparallel_interchange (fs : FS) (env : GitEnv)
    (iteration : Nat) (tag : String) (src tgt : Model)
    (opt topt : Optimizer)
    (hsha : fs.read .commitShaTxt = some (.text tag))
    (hpm : picklableSD (Model.underlying src).state = true)
    (hpo : picklableSD opt.state = true)
    (hkeys : sdKeys (Model.underlying src).state =
      sdKeys (Model.underlying tgt).state) :
    save_checkpoint fs iteration src opt =
      .ok (fs.write (.artifact iteration)
        (.ckpt (Model.underlying src).state opt.state)) ∧
    load_checkpoint (fs.write (.artifact iteration)
        (.ckpt (Model.underlying src).state opt.state)) env iteration tgt
        (some topt) =
      (shaWarnings env tag,
        .ok ⟨tgt.withUnderlyingState (Model.underlying src).state,
          some ⟨opt.state⟩⟩) ∧
    (Model.underlying (tgt.withUnderlyingState
        (Model.underlying src).state)).state =
      (Model.underlying src).state ∧
    (tgt.withUnderlyingState (Model.underlying src).state).isDataParallel =
      tgt.isDataParallel := by
  obtain ⟨h1, h2⟩ :=
    save_then_load fs env iteration tag src tgt opt topt hsha hpm hpo hkeys
  exact ⟨h1, h2, withUnderlyingState_state _ _, withUnderlyingState_wrap _ _⟩

theorem c10_dataparallel_interchange_witness :
    save_checkpoint wFS 2 wModelB wOptB =
      .ok (wFS.write (.artifact 2)
        (.ckpt (Model.underlying wModelB).state wOptB.state)) ∧
    load_checkpoint (wFS.write (.artifact 2)
        (.ckpt (Model.underlying wModelB).state wOptB.state)) wEnv 2 wModelA
        (some wOptA) =
      (shaWarnings wEnv "abc123",
        .ok ⟨wModelA.withUnderlyingState (Model.underlying wModelB).state,
          some ⟨wOptB.state⟩⟩) ∧
    (Model.underlying (wModelA.withUnderlyingState
        (Model.underlying wModelB).state)).state =
      (Model.underlying wModelB).state ∧
    (wModelA.withUnderlyingState
        (Model.underlying wModelB).state).isDataParallel =
      wModelA.isDataParallel :=
  c10_dataparallel_interchange wFS wEnv 2 "abc123" wModelB wModelA wOptB
    wOptA (by decide) (by decide) (by decide) (by decide)

end Tbd
